import Mathlib

/-!
Shallow embedding of `src/genocode/vectorized_datavis.py` (Genes-N-Risks).

Numbers are modelled as rationals.  The transcendental library functions the
source calls (`math.sqrt`, `np.exp`, `math.erf`, `np.pi`, `NormalDist.cdf`,
Python float parsing) are passed in as explicit function parameters, since
their exact values never decide a control-flow branch in the source.
Python runtime failures are modelled with an explicit error type: `KeyError`
on the z-table is the spec's `InvalidConfidenceLevel`, numpy's `TypeError`
when mean/standard deviation are unresolved at sampling time is the spec's
`MissingParameters`, and the `UnboundLocalError` on `count` in
`compounddata` is the spec's `AmbiguousInputShape`.
`np.random.normal(m, s, n)` is modelled as drawing `n` values `m + s * ω i`
from an abstract standard source `ω`.
-/

namespace Datavis

/-- Runtime failures of the Python source, named after the spec's error
kinds where the spec names them. -/
inductive PyErr where
  /-- a Python `TypeError`, e.g. `isinstance(mean, None)` or arithmetic on `None` -/
  | typeError
  /-- `KeyError` on the z-score table in `ci_to_sd` -/
  | invalidConfidenceLevel
  /-- numpy `TypeError`: `np.random.normal` called with unresolved mean/sdev -/
  | missingParameters
  /-- `UnboundLocalError` on `count` in `compounddata` -/
  | ambiguousInputShape
  /-- Python `ValueError`, e.g. `float()` on a non-numeric string, negative scale -/
  | valueError
  /-- `statistics.StatisticsError` from `NormalDist` -/
  | statisticsError
  /-- a Python `IndexError` -/
  | indexError
deriving DecidableEq, Repr

/-- a Python value as it flows through `correctdatatype`/`datagen`:
`None`, a float, an int, or a string. -/
inductive PyVal where
  | none
  | float (q : ℚ)
  | int (n : ℤ)
  | str (s : String)
deriving DecidableEq, Repr

/-- numeric view used by Python arithmetic and `np.random.normal`:
floats and ints are numbers, `None` and strings are not. -/
def PyVal.toNum? : PyVal → Option ℚ
  | .float q => some q
  | .int n => some (n : ℚ)
  | _ => Option.none

/-- the `isinstance(x, float)` test (`None`, ints and strings are not floats). -/
def PyVal.isFloat : PyVal → Bool
  | .float _ => true
  | _ => false

/-- the `zvals` dictionary of `ci_to_sd`, line 46, including its duplicated
z-scores; `Option.none` is a `KeyError`. -/
def zvals (cival : ℚ) : Option ℚ :=
  if cival = 99.9 then some 3.291
  else if cival = 99.5 then some 2.807
  else if cival = 99.0 then some 2.807
  else if cival = 95.0 then some 1.960
  else if cival = 90.0 then some 1.645
  else if cival = 85.0 then some 1.645
  else if cival = 80.0 then some 1.282
  else Option.none

/-- `se_to_sd(serror, size)`: `sdev = serror*math.sqrt(size)`. -/
def se_to_sd (sqrt : ℚ → ℚ) (serror : ℚ) (size : ℕ) : ℚ :=
  serror * sqrt (size : ℚ)

/-- `ci_to_sd(lowerci, upperci, cival, size)`: z-score lookup (a `KeyError`
is the spec's `InvalidConfidenceLevel`), then
`sdev = math.sqrt(size)*(upperci-lowerci)/zscore`; the subtraction raises
`TypeError` when a bound is not numeric, and the lookup happens first. -/
def ci_to_sd (sqrt : ℚ → ℚ) (lowerci upperci : PyVal) (cival : ℚ) (size : ℕ) :
    Except PyErr ℚ :=
  match zvals cival with
  | Option.none => .error .invalidConfidenceLevel
  | some zscore =>
    match upperci.toNum?, lowerci.toNum? with
    | some u, some l => .ok (sqrt (size : ℚ) * (u - l) / zscore)
    | _, _ => .error .typeError

/-- model of `np.random.normal(mean, sdev, size)`: `size` draws
`mean + sdev * ω i` from an abstract standard source `ω`; numpy raises
`TypeError` (the spec's `MissingParameters`) when mean or sdev is not a
number and `ValueError` when the scale is negative. -/
def npRandomNormal (ω : ℕ → ℚ) (mean sdev : Option ℚ) (size : ℕ) :
    Except PyErr (List ℚ) :=
  match mean, sdev with
  | some m, some s =>
    if s < 0 then .error .valueError
    else .ok ((List.range size).map fun i => m + s * ω i)
  | _, _ => .error .missingParameters

/-- `datagen(mean, sdev, serror, lowerci, upperci, cival, size)`, lines 52-84.
When `upperci` is a float the source computes `sdev = ci_to_sd(...)` and then
evaluates `isinstance(mean, None)`, which always raises `TypeError` because
`None` is not a type; otherwise the `isinstance(serror, float)` branch may
replace `sdev` before `np.random.normal(mean, sdev, size)` is drawn. -/
def datagen (sqrt : ℚ → ℚ) (ω : ℕ → ℚ)
    (mean sdev serror lowerci upperci : PyVal) (cival : ℚ) (size : ℕ) :
    Except PyErr (List ℚ) :=
  match upperci with
  | .float _ =>
    (match ci_to_sd sqrt lowerci upperci cival size with
     | .error e => .error e
     | .ok _ => .error .typeError)
  | _ =>
    let sdev1 := match serror with
      | .float se => PyVal.float (se_to_sd sqrt se size)
      | _ => sdev
    npRandomNormal ω mean.toNum? sdev1.toNum? size

/-- one arm of `correctdatatype`, lines 107-136: ints and numeric strings
become floats (`float()` on a bad string is a `ValueError`), everything
else — floats and `None` included — passes through unchanged.  `parse`
models Python float-literal parsing. -/
def coerce1 (parse : String → Option ℚ) : PyVal → Except PyErr PyVal
  | .int n => .ok (.float (n : ℚ))
  | .str s =>
    match parse s with
    | some q => .ok (.float q)
    | Option.none => .error .valueError
  | v => .ok v

/-- `correctdatatype(mean, sdev, serror, upperci, lowerci)`: applies the
int/str-to-float branch to each of the five parameters in order and returns
the five results. -/
def correctdatatype (parse : String → Option ℚ)
    (mean sdev serror upperci lowerci : PyVal) :
    Except PyErr (PyVal × PyVal × PyVal × PyVal × PyVal) := do
  let fmean ← coerce1 parse mean
  let fsdev ← coerce1 parse sdev
  let fserror ← coerce1 parse serror
  let fuci ← coerce1 parse upperci
  let flci ← coerce1 parse lowerci
  return (fmean, fsdev, fserror, fuci, flci)

/-- an argument of `compounddata`: either `None`, a scalar, or a numpy
array (an ordered sequence of Python values); only arrays pass the
`isinstance(x, np.ndarray)` tests. -/
inductive CArg where
  | none
  | scal (v : PyVal)
  | arr (xs : List PyVal)
deriving DecidableEq, Repr

/-- the `isinstance(x, np.ndarray)` test. -/
def CArg.isArr : CArg → Bool
  | .arr _ => true
  | _ => false

/-- Python indexing `x[i]`: out-of-range indexing of an array raises
`IndexError`; indexing `None` or a scalar raises `TypeError`. -/
def CArg.get (a : CArg) (i : ℕ) : Except PyErr PyVal :=
  match a with
  | .arr xs =>
    match xs[i]? with
    | some v => .ok v
    | Option.none => .error .indexError
  | _ => .error .typeError

/-- the shape-resolution block of `compounddata`, lines 160-173: if `mean`
is an array it fixes `count = len(mean)`, replaces whichever of
`sdev`/`serror` was not given as an array (and always `upperci`/`lowerci`)
with `None`-filled arrays of that length (`np.empty(count, dtype=object)`);
otherwise, if `upperci` is an array, `count = len(upperci)` and `mean`,
`sdev`, `serror` are replaced with `None`-filled arrays while `lowerci`
passes through; if neither is an array, `count` is never assigned and
line 173 raises `UnboundLocalError` (the spec's `AmbiguousInputShape`). -/
def resolveShape (mean sdev serror upperci lowerci : CArg) :
    Except PyErr (ℕ × CArg × CArg × CArg × CArg × CArg) :=
  match mean with
  | .arr ms =>
    let count := ms.length
    let pair : CArg × CArg :=
      match sdev, serror with
      | .arr ss, _ => (.arr ss, .arr (List.replicate count PyVal.none))
      | _, .arr ses => (.arr (List.replicate count PyVal.none), .arr ses)
      | s, se => (s, se)
    .ok (count, .arr ms, pair.1, pair.2,
         .arr (List.replicate count PyVal.none),
         .arr (List.replicate count PyVal.none))
  | _ =>
    match upperci with
    | .arr us =>
      .ok (us.length, .arr (List.replicate us.length PyVal.none),
           .arr (List.replicate us.length PyVal.none),
           .arr (List.replicate us.length PyVal.none), .arr us, lowerci)
    | _ => .error .ambiguousInputShape

/-- `compounddata(mean, sdev, serror, upperci, lowerci, cival, size)`,
lines 139-186: resolve the shapes, then for each index `i` run
`correctdatatype` on the five entries and `datagen` on the results
(the source passes the arguments by keyword; `Ω i` is the random source of
the `i`-th `np.random.normal` call). -/
def compounddata (sqrt : ℚ → ℚ) (Ω : ℕ → ℕ → ℚ) (parse : String → Option ℚ)
    (mean sdev serror upperci lowerci : CArg) (cival : ℚ) (size : ℕ) :
    Except PyErr (List (List ℚ)) :=
  match resolveShape mean sdev serror upperci lowerci with
  | .error e => .error e
  | .ok (count, m, s, se, u, l) =>
    (List.range count).mapM (fun i => do
      let mi ← m.get i
      let si ← s.get i
      let sei ← se.get i
      let ui ← u.get i
      let li ← l.get i
      let (fm, fs, fse, fu, fl) ← correctdatatype parse mi si sei ui li
      datagen sqrt (Ω i) fm fs fse fl fu cival size)

/-- model of the counts of `np.histogram(a, bins)`, used by `databinning`:
bin `i` is the half-open interval `[edge_i, edge_(i+1))` except that the
last bin is closed on both ends; values outside `[first, last]` are not
counted.  Fewer than two edges give no bins. -/
def npHistogram (a : List ℚ) : List ℚ → List ℕ
  | [e0, e1] => [a.countP fun x => decide (e0 ≤ x ∧ x ≤ e1)]
  | e0 :: e1 :: e2 :: es =>
    (a.countP fun x => decide (e0 ≤ x ∧ x < e1)) :: npHistogram a (e1 :: e2 :: es)
  | _ => []

/-- `databinning(datagenerated, bins_list)`, lines 188-203: one histogram
per input sample, all over the shared bin edges. -/
def databinning (datagenerated : List (List ℚ)) (bins_list : List ℚ) :
    List (List ℕ) :=
  datagenerated.map fun a => npHistogram a bins_list

/-- `pdfgen(mean, sdev, bins_list)`, lines 235-253: for each dataset `i`,
the normal density `1/(sdev[i]*sqrt(2*pi)) * exp(-(x-mean[i])^2/(2*sdev[i]^2))`
evaluated at every point of `bins_list`; `sdev[i]` raises `IndexError` when
`sdev` is shorter than `mean`. -/
def pdfgen (sqrt expf : ℚ → ℚ) (piq : ℚ) (mean sdev bins_list : List ℚ) :
    Except PyErr (List (List ℚ)) :=
  (List.range mean.length).mapM (fun i =>
    match mean[i]?, sdev[i]? with
    | some m, some s =>
      Except.ok (bins_list.map fun x =>
        1 / (s * sqrt (2 * piq)) * expf (-((x - m) ^ 2) / (2 * s ^ 2)))
    | _, _ => Except.error PyErr.indexError)

/-- model of `statistics.NormalDist(mu1, s1).overlap(NormalDist(mu2, s2))`
from CPython's `statistics` module: after ordering the two distributions
lexicographically by `(sigma, mu)`, a zero variance raises
`StatisticsError`; equal variances give `1 - erf(dm / (2*sigma*sqrt(2)))`
with `dm = |mu2 - mu1|`, and unequal variances go through the two-root
formula with the normal `cdf`.  (`cdf m s x` abstracts `NormalDist(m, s).cdf(x)`.) -/
def ndOverlap (sqrt erf logf : ℚ → ℚ) (cdf : ℚ → ℚ → ℚ → ℚ)
    (mu1 s1 mu2 s2 : ℚ) : Except PyErr ℚ :=
  let swap := s2 < s1 ∨ (s2 = s1 ∧ mu2 < mu1)
  let xm := if swap then mu2 else mu1
  let xs := if swap then s2 else s1
  let ym := if swap then mu1 else mu2
  let ys := if swap then s1 else s2
  let xvar := xs ^ 2
  let yvar := ys ^ 2
  if xvar = 0 ∨ yvar = 0 then .error .statisticsError
  else
    let dv := yvar - xvar
    let dm := |ym - xm|
    if dv = 0 then .ok (1 - erf (dm / (2 * xs * sqrt 2)))
    else
      let a := xm * yvar - ym * xvar
      let b := xs * ys * sqrt (dm ^ 2 + dv * logf (yvar / xvar))
      let x1 := (a + b) / dv
      let x2 := (a - b) / dv
      .ok (1 - (|cdf ym ys x1 - cdf xm xs x1| + |cdf ym ys x2 - cdf xm xs x2|))

/-- model of Python's `'{0:1.2%}'.format(v)`: the value times 100, rendered
with two digits after the decimal point and a trailing percent sign (ties
are rounded away from zero here; the claims only evaluate it at exact
hundredths, where every rounding mode agrees). -/
def formatPercent2 (q : ℚ) : String :=
  let cents : ℤ := round (q * 10000)
  let whole := cents / 100
  let frac := (cents % 100).natAbs
  toString whole ++ "." ++
    (if frac < 10 then "0" ++ toString frac else toString frac) ++ "%"

/-- `percent_overlap(mean, sdev)`, lines 321-341: for every `i` in
`range(len(mean))` — including `i = 0` — builds twice the normal
distribution `N(mean[i], sdev[i])` (construction raises `StatisticsError`
for a negative sigma) and formats its overlap with itself. -/
def percent_overlap (sqrt erf logf : ℚ → ℚ) (cdf : ℚ → ℚ → ℚ → ℚ)
    (mean sdev : List ℚ) : Except PyErr (List String) :=
  (List.range mean.length).mapM (fun i =>
    match mean[i]?, sdev[i]? with
    | some mu, some sg =>
      if sg < 0 then Except.error PyErr.statisticsError
      else
        match ndOverlap sqrt erf logf cdf mu sg mu sg with
        | .error e => .error e
        | .ok ov =>
          .ok ("The overlap between dataset 1 and dataset " ++ toString i
            ++ " is " ++ formatPercent2 ov)
    | _, _ => Except.error PyErr.indexError)

/-! helper lemmas shared by the claim theorems -/

/-- evaluating a `mapM` whose every step succeeds. -/
theorem mapM_ok {α : Type} (f : ℕ → Except PyErr α) (g : ℕ → α) :
    ∀ (l : List ℕ), (∀ i ∈ l, f i = .ok (g i)) → l.mapM f = .ok (l.map g)
  | [], _ => rfl
  | i :: is, h => by
    have h1 := h i (List.mem_cons_self i is)
    have h2 := mapM_ok f g is (fun j hj => h j (List.mem_cons_of_mem i hj))
    simp only [List.mapM_cons, h1, h2, List.map_cons]
    rfl

/-- the int/str-to-float branch is idempotent on its successful results. -/
theorem coerce1_idem (parse : String → Option ℚ) (v w : PyVal)
    (h : coerce1 parse v = .ok w) : coerce1 parse w = .ok w := by
  cases v with
  | int n =>
    simp only [coerce1] at h
    cases h
    rfl
  | str s =>
    simp only [coerce1] at h
    cases hp : parse s with
    | none => rw [hp] at h; cases h
    | some q => rw [hp] at h; cases h; rfl
  | float q => cases h; rfl
  | none => cases h; rfl

/-- splitting a `countP` along a disjoint cover of the predicate. -/
theorem countP_or_split (a : List ℚ) (p q r : ℚ → Bool)
    (hcov : ∀ x, r x = (p x || q x)) (hdis : ∀ x, ¬(p x = true ∧ q x = true)) :
    a.countP r = a.countP p + a.countP q := by
  induction a with
  | nil => simp
  | cons y ys ih =>
    have hy := hcov y
    have hd := hdis y
    simp only [List.countP_cons, ih]
    cases hp : p y <;> cases hq : q y <;>
      simp [hp, hq] at hy hd ⊢ <;> simp [hy] <;> omega

/-- a predicate and its negation count every element exactly once. -/
theorem countP_add_not (a : List ℚ) (p : ℚ → Bool) :
    a.countP p + a.countP (fun x => !p x) = a.length := by
  induction a with
  | nil => rfl
  | cons y ys ih =>
    simp only [List.countP_cons, List.length_cons]
    cases hp : p y <;> simp [hp] <;> omega

/-- in a strictly increasing chain the head is at most the last element. -/
theorem chain_head_le_getLastD (e : ℚ) (l : List ℚ)
    (h : List.Chain' (· < ·) (e :: l)) : e ≤ l.getLastD e := by
  induction l generalizing e with
  | nil => exact le_refl e
  | cons f fs ih =>
    rcases List.chain'_cons.mp h with ⟨hef, hc⟩
    calc e ≤ f := le_of_lt hef
    _ ≤ fs.getLastD f := ih f hc
    _ = (f :: fs).getLastD e := by rw [List.getLastD_cons]

/-- a histogram has one count per consecutive pair of edges. -/
theorem npHistogram_length (a : List ℚ) :
    ∀ (bins : List ℚ), (npHistogram a bins).length = bins.length - 1
  | [] => rfl
  | [_] => rfl
  | [_, _] => rfl
  | e0 :: e1 :: e2 :: es => by
    have ih := npHistogram_length a (e1 :: e2 :: es)
    simp only [npHistogram, List.length_cons] at ih ⊢
    omega

/-- summing the histogram counts over strictly increasing edges counts
exactly the values between the first and the last edge. -/
theorem npHistogram_sum (a : List ℚ) :
    ∀ (e0 e1 : ℚ) (rest : List ℚ), List.Chain' (· < ·) (e0 :: e1 :: rest) →
      (npHistogram a (e0 :: e1 :: rest)).sum =
        a.countP (fun x => decide (e0 ≤ x ∧ x ≤ rest.getLastD e1))
  | e0, e1, [], _ => by simp [npHistogram]
  | e0, e1, e2 :: es, h => by
    rcases List.chain'_cons.mp h with ⟨h01, hc⟩
    have ih := npHistogram_sum a e1 e2 es hc
    have h1L : e1 ≤ es.getLastD e2 := by
      have h2 := chain_head_le_getLastD e1 (e2 :: es) hc
      rwa [List.getLastD_cons] at h2
    have hsplit := countP_or_split a
      (fun x => decide (e0 ≤ x ∧ x < e1))
      (fun x => decide (e1 ≤ x ∧ x ≤ es.getLastD e2))
      (fun x => decide (e0 ≤ x ∧ x ≤ es.getLastD e2))
      (fun x => by
        rw [← Bool.decide_or, decide_eq_decide]
        constructor
        · rintro ⟨hx0, hxL⟩
          rcases lt_or_le x e1 with hx | hx
          · exact Or.inl ⟨hx0, hx⟩
          · exact Or.inr ⟨hx, hxL⟩
        · rintro (⟨hx0, hx1⟩ | ⟨hx1, hxL⟩)
          · exact ⟨hx0, le_trans (le_of_lt hx1) h1L⟩
          · exact ⟨le_trans (le_of_lt h01) hx1, hxL⟩)
      (fun x => by
        rintro ⟨hp, hq⟩
        rw [decide_eq_true_eq] at hp hq
        exact absurd hq.1 (not_le.mpr hp.2))
    simp only [npHistogram, List.sum_cons, ih, List.getLastD_cons]
    omega

/-- the overlap of a nondegenerate normal distribution with itself is
`1 - erf 0` (the source always hits the equal-variance branch there). -/
theorem ndOverlap_self (sqrt erf logf : ℚ → ℚ) (cdf : ℚ → ℚ → ℚ → ℚ)
    (mu s : ℚ) (hs : 0 < s) :
    ndOverlap sqrt erf logf cdf mu s mu s = .ok (1 - erf 0) := by
  have hvar : ¬(s ^ 2 = 0 ∨ s ^ 2 = 0) := by
    simpa using pow_ne_zero 2 (ne_of_gt hs)
  simp [ndOverlap, ite_self, sub_self, abs_zero, zero_div, hvar, hs.ne']

/-- evaluating `percent_overlap` on same-length inputs with positive
standard deviations: one string per index `i` in `range(len(mean))`, each
reporting the self-overlap `1 - erf 0`. -/
theorem percent_overlap_eval (sqrt erf logf : ℚ → ℚ) (cdf : ℚ → ℚ → ℚ → ℚ)
    (mean sdev : List ℚ) (hlen : sdev.length = mean.length)
    (hpos : ∀ s ∈ sdev, 0 < s) :
    percent_overlap sqrt erf logf cdf mean sdev =
      .ok ((List.range mean.length).map fun i =>
        "The overlap between dataset 1 and dataset " ++ toString i
          ++ " is " ++ formatPercent2 (1 - erf 0)) := by
  apply mapM_ok
  intro i hi
  have him : i < mean.length := List.mem_range.mp hi
  have his : i < sdev.length := by omega
  have hsi : 0 < sdev[i] := hpos _ (List.getElem_mem his)
  simp only [List.getElem?_eq_getElem him, List.getElem?_eq_getElem his]
  rw [if_neg (not_lt.mpr (le_of_lt hsi))]
  rw [ndOverlap_self sqrt erf logf cdf mean[i] sdev[i] hsi]

/-- formatting an exact 100 percent. -/
theorem formatPercent2_one : formatPercent2 1 = "100.00%" := by
  have h : round ((1 : ℚ) * 10000) = 10000 := by norm_num [round_eq]
  simp only [formatPercent2, h]
  rfl

/-- reducing a successful `Except` bind. -/
theorem exBind_ok {α β : Type} (a : α) (f : α → Except PyErr β) :
    (Except.ok a >>= f) = f a := rfl

/-- reducing a failed `Except` bind. -/
theorem exBind_err {α β : Type} (e : PyErr) (f : α → Except PyErr β) :
    ((Except.error e : Except PyErr α) >>= f) = Except.error e := rfl

/-- reducing an `Except` pure. -/
theorem exPure {α : Type} (a : α) :
    (pure a : Except PyErr α) = Except.ok a := rfl

/-- when neither `upperci` nor `serror` is a float, `datagen` goes straight
to the numpy draw with the supplied mean and standard deviation. -/
theorem datagen_skip (sqrt : ℚ → ℚ) (ω : ℕ → ℚ)
    (mean sdev serror lowerci upperci : PyVal) (cival : ℚ) (size : ℕ)
    (hup : upperci.isFloat = false) (hse : serror.isFloat = false) :
    datagen sqrt ω mean sdev serror lowerci upperci cival size =
      npRandomNormal ω mean.toNum? sdev.toNum? size := by
  cases upperci <;> cases serror <;> simp_all [PyVal.isFloat, datagen]

/-- the numpy draw fails when no standard deviation is available. -/
theorem npRandomNormal_noSdev (ω : ℕ → ℚ) (mean : Option ℚ) (size : ℕ) :
    npRandomNormal ω mean Option.none size = .error .missingParameters := by
  cases mean <;> rfl

/-- successful `correctdatatype` decomposes into five successful coercions. -/
theorem correctdatatype_ok (parse : String → Option ℚ)
    (a b c d e : PyVal) (m s se u l : PyVal)
    (h : correctdatatype parse a b c d e = .ok (m, s, se, u, l)) :
    coerce1 parse a = .ok m ∧ coerce1 parse b = .ok s ∧
      coerce1 parse c = .ok se ∧ coerce1 parse d = .ok u ∧
      coerce1 parse e = .ok l := by
  simp only [correctdatatype] at h
  rcases ha : coerce1 parse a with ea | va <;> rw [ha] at h
  · rw [exBind_err] at h; exact Except.noConfusion h
  rw [exBind_ok] at h
  rcases hb : coerce1 parse b with eb | vb <;> rw [hb] at h
  · rw [exBind_err] at h; exact Except.noConfusion h
  rw [exBind_ok] at h
  rcases hc : coerce1 parse c with ec | vc <;> rw [hc] at h
  · rw [exBind_err] at h; exact Except.noConfusion h
  rw [exBind_ok] at h
  rcases hd : coerce1 parse d with ed | vd <;> rw [hd] at h
  · rw [exBind_err] at h; exact Except.noConfusion h
  rw [exBind_ok] at h
  rcases he : coerce1 parse e with ee | ve <;> rw [he] at h
  · rw [exBind_err] at h; exact Except.noConfusion h
  rw [exBind_ok, exPure] at h
  injection h with h2
  injection h2 with hm h2
  injection h2 with hs h2
  injection h2 with hse h2
  injection h2 with hu hl
  subst hm; subst hs; subst hse; subst hu; subst hl
  exact ⟨rfl, rfl, rfl, rfl, rfl⟩

/-- evaluating `correctdatatype` from five successful coercions. -/
theorem correctdatatype_eval (parse : String → Option ℚ)
    (a b c d e : PyVal) (m s se u l : PyVal)
    (ha : coerce1 parse a = .ok m) (hb : coerce1 parse b = .ok s)
    (hc : coerce1 parse c = .ok se) (hd : coerce1 parse d = .ok u)
    (he : coerce1 parse e = .ok l) :
    correctdatatype parse a b c d e = .ok (m, s, se, u, l) := by
  simp only [correctdatatype, ha, hb, hc, hd, he, exBind_ok, exPure]

/-! theorems settling the claims -/

/-- C1: the claim says that when `upperci` is a float, `datagen` resolves
the standard deviation by confidence-interval conversion, derives the mean
from the bounds when it is absent, and then lets the standard-error branch
override the result.  In the code, entering the confidence-interval branch
always raises `TypeError` at `isinstance(mean, None)` (line 79; `None` is
not a type), so no mean is ever derived, the standard-error branch is never
reached, and no sample is generated: this theorem evaluates the code at a
failing input where both a standard error and a confidence upper bound are
present. -/
theorem datagen_c1_ci_branch_crashes :
    datagen (fun q => q) (fun _ => 0) (.float 1) .none (.float 0.5)
      (.float 0.2) (.float 0.4) 95 100 = .error .typeError := by
  norm_num [datagen, ci_to_sd, zvals, PyVal.toNum?]

/-- C5: when neither the confidence-interval branch (`upperci` not a float)
nor the standard-error branch (`serror` not a float) resolves a standard
deviation and none was supplied directly (`sdev = None`), `datagen` fails
with `MissingParameters`, surfaced directly to the caller. -/
theorem datagen_c5_missing_parameters (sqrt : ℚ → ℚ) (ω : ℕ → ℚ)
    (mean serror lowerci upperci : PyVal) (cival : ℚ) (size : ℕ)
    (hup : upperci.isFloat = false) (hse : serror.isFloat = false) :
    datagen sqrt ω mean .none serror lowerci upperci cival size =
      .error .missingParameters := by
  rw [datagen_skip sqrt ω mean .none serror lowerci upperci cival size hup hse]
  exact npRandomNormal_noSdev ω mean.toNum? size

/-- witness for C5 at a concrete input. -/
theorem datagen_c5_missing_parameters_witness :
    PyVal.isFloat .none = false ∧
      datagen (fun q => q) (fun _ => 0) (.float 1) .none .none .none .none
        95 100 = .error .missingParameters :=
  ⟨rfl, datagen_c5_missing_parameters (fun q => q) (fun _ => 0) (.float 1)
    .none .none .none 95 100 rfl rfl⟩

/-- C6: `ci_to_sd` resolves every confidence level of the fixed z-table
{99.9: 3.291, 99.5: 2.807, 99.0: 2.807, 95.0: 1.960, 90.0: 1.645,
85.0: 1.645, 80.0: 1.282} — duplicated z-scores included — to
`sqrt(size)*(upper-lower)/zscore`, and fails with
`InvalidConfidenceLevel` on every level outside the table. -/
theorem ci_to_sd_c6_table (sqrt : ℚ → ℚ) (l u : ℚ) (sz : ℕ) :
    (ci_to_sd sqrt (.float l) (.float u) 99.9 sz =
        .ok (sqrt (sz : ℚ) * (u - l) / 3.291) ∧
      ci_to_sd sqrt (.float l) (.float u) 99.5 sz =
        .ok (sqrt (sz : ℚ) * (u - l) / 2.807) ∧
      ci_to_sd sqrt (.float l) (.float u) 99.0 sz =
        .ok (sqrt (sz : ℚ) * (u - l) / 2.807) ∧
      ci_to_sd sqrt (.float l) (.float u) 95.0 sz =
        .ok (sqrt (sz : ℚ) * (u - l) / 1.960) ∧
      ci_to_sd sqrt (.float l) (.float u) 90.0 sz =
        .ok (sqrt (sz : ℚ) * (u - l) / 1.645) ∧
      ci_to_sd sqrt (.float l) (.float u) 85.0 sz =
        .ok (sqrt (sz : ℚ) * (u - l) / 1.645) ∧
      ci_to_sd sqrt (.float l) (.float u) 80.0 sz =
        .ok (sqrt (sz : ℚ) * (u - l) / 1.282)) ∧
    ∀ c : ℚ, c ∉ ([99.9, 99.5, 99.0, 95.0, 90.0, 85.0, 80.0] : List ℚ) →
      ci_to_sd sqrt (.float l) (.float u) c sz =
        .error .invalidConfidenceLevel := by
  constructor
  · refine ⟨?_, ?_, ?_, ?_, ?_, ?_, ?_⟩ <;>
      norm_num [ci_to_sd, zvals, PyVal.toNum?]
  · intro c hc
    simp only [List.mem_cons, List.not_mem_nil, or_false] at hc
    push_neg at hc
    obtain ⟨h1, h2, h3, h4, h5, h6, h7⟩ := hc
    simp [ci_to_sd, zvals, h1, h2, h3, h4, h5, h6, h7]

/-- witness for C6 at the out-of-table level 50. -/
theorem ci_to_sd_c6_table_witness :
    (50 : ℚ) ∉ ([99.9, 99.5, 99.0, 95.0, 90.0, 85.0, 80.0] : List ℚ) ∧
      ci_to_sd (fun q => q) (.float 0) (.float 1) 50 4 =
        .error .invalidConfidenceLevel :=
  ⟨by norm_num, (ci_to_sd_c6_table (fun q => q) 0 1 4).2 50 (by norm_num)⟩

/-- C10: the per-parameter float coercion of `correctdatatype` is
idempotent on every accepted input: a float passes through unchanged,
`None` stays `None`, any successful coercion result is a fixed point, and
`correctdatatype` applied to its own successful output returns that output
unchanged. -/
theorem coerceToFloat_c10_idempotent (parse : String → Option ℚ) :
    (∀ v w, coerce1 parse v = .ok w → coerce1 parse w = .ok w) ∧
    (∀ q : ℚ, coerce1 parse (.float q) = .ok (.float q)) ∧
    coerce1 parse .none = .ok .none ∧
    (∀ a b c d e m s se u l,
      correctdatatype parse a b c d e = .ok (m, s, se, u, l) →
      correctdatatype parse m s se u l = .ok (m, s, se, u, l)) := by
  refine ⟨coerce1_idem parse, fun q => rfl, rfl, ?_⟩
  intro a b c d e m s se u l h
  obtain ⟨ha, hb, hc, hd, he⟩ := correctdatatype_ok parse a b c d e m s se u l h
  exact correctdatatype_eval parse m s se u l m s se u l
    (coerce1_idem parse a m ha) (coerce1_idem parse b s hb)
    (coerce1_idem parse c se hc) (coerce1_idem parse d u hd)
    (coerce1_idem parse e l he)

/-- witness for C10: coercing the int 3 gives the float 3, a fixed point. -/
theorem coerceToFloat_c10_idempotent_witness :
    coerce1 (fun _ => Option.none) (.int 3) = .ok (.float 3) ∧
      coerce1 (fun _ => Option.none) (.float 3) = .ok (.float 3) :=
  ⟨rfl, (coerceToFloat_c10_idempotent (fun _ => Option.none)).1
    (.int 3) (.float 3) rfl⟩

/-- C2 (counterexample): with one dataset (`count = 1`) the claim demands a
sequence of `count-1 = 0` strings for `i` from 1 to 0; the code instead
returns one string per dataset, for `i` from 0 to `count-1`, so the result
at `mean=[0]`, `sdev=[1]` is a one-element sequence whose entry names
dataset 0. -/
theorem percent_overlap_c2_counterexample :
    percent_overlap (fun _ => 0) (fun _ => 0) (fun _ => 0) (fun _ _ _ => 0)
        [0] [1] =
      .ok ["The overlap between dataset 1 and dataset 0 is 100.00%"] ∧
    ¬percent_overlap (fun _ => 0) (fun _ => 0) (fun _ => 0) (fun _ _ _ => 0)
        [0] [1] = .ok [] := by
  have he := percent_overlap_eval (fun _ => 0) (fun _ => 0) (fun _ => 0)
    (fun _ _ _ => 0) [0] [1] rfl (by norm_num)
  constructor
  · rw [he]
    simp only [sub_zero, formatPercent2_one]
    rfl
  · intro hcontra
    rw [he] at hcontra
    simp at hcontra

/-- C2 (amended): for every call of `percent_overlap` on mean and
standard-deviation sequences of equal length `count ≥ 0` with positive
standard deviations (and with `erf 0 = 0`, as for the real error function),
the result is a sequence of exactly `count` strings, one per dataset for
`i` from 0 to `count-1`, each matching the literal pattern
`"The overlap between dataset 1 and dataset {i} is {pp.pp}%"` with the
percentage always formatted as `100.00`. -/
theorem percent_overlap_c2_amended (sqrt erf logf : ℚ → ℚ)
    (cdf : ℚ → ℚ → ℚ → ℚ) (mean sdev : List ℚ)
    (hlen : sdev.length = mean.length) (hpos : ∀ s ∈ sdev, 0 < s)
    (herf : erf 0 = 0) :
    percent_overlap sqrt erf logf cdf mean sdev =
      .ok ((List.range mean.length).map fun i =>
        "The overlap between dataset 1 and dataset " ++ toString i
          ++ " is 100.00%") := by
  rw [percent_overlap_eval sqrt erf logf cdf mean sdev hlen hpos]
  simp only [herf, sub_zero, formatPercent2_one]
  simp [String.append_assoc]

/-- witness for the amended C2 at a concrete two-dataset input. -/
theorem percent_overlap_c2_amended_witness :
    (([1, 2] : List ℚ).length = ([3, 4] : List ℚ).length) ∧
      percent_overlap (fun _ => 0) (fun _ => 0) (fun _ => 0) (fun _ _ _ => 0)
          [3, 4] [1, 2] =
        .ok ((List.range ([3, 4] : List ℚ).length).map fun i =>
          "The overlap between dataset 1 and dataset " ++ toString i
            ++ " is 100.00%") :=
  ⟨rfl, percent_overlap_c2_amended (fun _ => 0) (fun _ => 0) (fun _ => 0)
    (fun _ _ _ => 0) [3, 4] [1, 2] rfl (by norm_num) rfl⟩

/-- C3: the output of `percent_overlap` does not depend on the numeric
values of the means and standard deviations: any two calls on sequences of
the same length with positive standard deviations return identical string
sequences, because every entry reports the overlap of a distribution with
itself. -/
theorem percent_overlap_c3_value_independent (sqrt erf logf : ℚ → ℚ)
    (cdf : ℚ → ℚ → ℚ → ℚ) (m1 s1 m2 s2 : List ℚ)
    (hlen12 : m1.length = m2.length)
    (hl1 : s1.length = m1.length) (hl2 : s2.length = m2.length)
    (hp1 : ∀ s ∈ s1, 0 < s) (hp2 : ∀ s ∈ s2, 0 < s) :
    percent_overlap sqrt erf logf cdf m1 s1 =
      percent_overlap sqrt erf logf cdf m2 s2 := by
  rw [percent_overlap_eval sqrt erf logf cdf m1 s1 hl1 hp1,
    percent_overlap_eval sqrt erf logf cdf m2 s2 hl2 hp2, hlen12]

/-- witness for C3: two calls with different numbers but equal lengths. -/
theorem percent_overlap_c3_value_independent_witness :
    percent_overlap (fun _ => 0) (fun _ => 0) (fun _ => 0) (fun _ _ _ => 0)
        [5] [2] =
      percent_overlap (fun _ => 0) (fun _ => 0) (fun _ => 0) (fun _ _ _ => 0)
        [7] [3] :=
  percent_overlap_c3_value_independent (fun _ => 0) (fun _ => 0) (fun _ => 0)
    (fun _ _ _ => 0) [5] [2] [7] [3] rfl rfl rfl (by norm_num) (by norm_num)

/-- C4: `compounddata` takes the dataset count from `mean` when it is a
sequence (whatever the other arguments are), else from `upperci` when that
is a sequence, and fails with `AmbiguousInputShape` when neither is. -/
theorem compounddata_c4_shape :
    (∀ (ms : List PyVal) (sdev serror upperci lowerci : CArg),
      ∃ m s se u l, resolveShape (.arr ms) sdev serror upperci lowerci =
        .ok (ms.length, m, s, se, u, l)) ∧
    (∀ (mean sdev serror lowerci : CArg) (us : List PyVal),
      mean.isArr = false →
      ∃ m s se u l, resolveShape mean sdev serror (.arr us) lowerci =
        .ok (us.length, m, s, se, u, l)) ∧
    (∀ (sqrt : ℚ → ℚ) (Ω : ℕ → ℕ → ℚ) (parse : String → Option ℚ)
      (mean sdev serror upperci lowerci : CArg) (cival : ℚ) (size : ℕ),
      mean.isArr = false → upperci.isArr = false →
      compounddata sqrt Ω parse mean sdev serror upperci lowerci cival size =
        .error .ambiguousInputShape) := by
  refine ⟨?_, ?_, ?_⟩
  · intro ms sdev serror upperci lowerci
    exact ⟨_, _, _, _, _, rfl⟩
  · intro mean sdev serror lowerci us hm
    cases mean with
    | arr xs => simp [CArg.isArr] at hm
    | none => exact ⟨_, _, _, _, _, rfl⟩
    | scal v => exact ⟨_, _, _, _, _, rfl⟩
  · intro sqrt Ω parse mean sdev serror upperci lowerci cival size hm hu
    have hr : resolveShape mean sdev serror upperci lowerci =
        .error .ambiguousInputShape := by
      cases mean <;> cases upperci <;> simp_all [CArg.isArr, resolveShape]
    simp [compounddata, hr]

/-- witness for C4: neither `mean` nor `upperci` given as a sequence. -/
theorem compounddata_c4_shape_witness :
    CArg.isArr .none = false ∧ CArg.isArr (.scal (.float 1)) = false ∧
      compounddata (fun q => q) (fun _ _ => 0) (fun _ => Option.none)
        .none .none .none (.scal (.float 1)) .none 95 5 =
        .error .ambiguousInputShape :=
  ⟨rfl, rfl, compounddata_c4_shape.2.2 (fun q => q) (fun _ _ => 0)
    (fun _ => Option.none) .none .none .none (.scal (.float 1)) .none 95 5
    rfl rfl⟩

/-- pointwise equal predicates count equally. -/
theorem countP_ext (a : List ℚ) (p q : ℚ → Bool) (h : ∀ x, p x = q x) :
    a.countP p = a.countP q := by
  induction a with
  | nil => rfl
  | cons y ys ih => simp [List.countP_cons, h y, ih]

/-- C8: `databinning` returns one histogram per input sample; each
histogram has one count per consecutive pair of the (strictly increasing)
bin edges, i.e. `len(binEdges)-1` counts, and its total equals the sample
length minus the draws falling outside `[first edge, last edge]`. -/
theorem databinning_c8_histograms (ds : List (List ℚ)) (e0 e1 : ℚ)
    (rest : List ℚ) (hchain : List.Chain' (· < ·) (e0 :: e1 :: rest)) :
    (databinning ds (e0 :: e1 :: rest)).length = ds.length ∧
    (∀ h ∈ databinning ds (e0 :: e1 :: rest),
      h.length = (e0 :: e1 :: rest).length - 1) ∧
    (∀ a ∈ ds, (npHistogram a (e0 :: e1 :: rest)).sum =
      a.length - a.countP (fun x =>
        decide (x < e0 ∨ rest.getLastD e1 < x))) := by
  refine ⟨by simp [databinning], ?_, ?_⟩
  · intro h hmem
    simp only [databinning, List.mem_map] at hmem
    obtain ⟨a, _, rfl⟩ := hmem
    exact npHistogram_length a _
  · intro a _
    rw [npHistogram_sum a e0 e1 rest hchain]
    have hnot : ∀ x : ℚ, (decide (e0 ≤ x ∧ x ≤ rest.getLastD e1)) =
        (!(decide (x < e0 ∨ rest.getLastD e1 < x))) := by
      intro x
      rw [← decide_not, decide_eq_decide]
      constructor
      · rintro ⟨h1, h2⟩ (hx | hx)
        · exact absurd h1 (not_le.mpr hx)
        · exact absurd h2 (not_le.mpr hx)
      · intro hx
        push_neg at hx
        exact hx
    have hc := countP_add_not a
      (fun x => decide (x < e0 ∨ rest.getLastD e1 < x))
    have h2 := countP_ext a _ _ hnot
    omega

/-- witness for C8 on a concrete sample and strictly increasing edges. -/
theorem databinning_c8_histograms_witness :
    List.Chain' (· < ·) ([0, 2, 4] : List ℚ) ∧
      ((databinning [[1, 3, 9]] ([0, 2, 4] : List ℚ)).length =
          ([[1, 3, 9]] : List (List ℚ)).length ∧
        (∀ h ∈ databinning [[1, 3, 9]] ([0, 2, 4] : List ℚ),
          h.length = ([0, 2, 4] : List ℚ).length - 1) ∧
        (∀ a ∈ ([[1, 3, 9]] : List (List ℚ)),
          (npHistogram a [0, 2, 4]).sum = a.length - a.countP (fun x =>
            decide (x < 0 ∨ ([4] : List ℚ).getLastD 2 < x)))) :=
  ⟨by norm_num [List.chain'_cons],
    databinning_c8_histograms [[1, 3, 9]] 0 2 [4]
      (by norm_num [List.chain'_cons])⟩

/-- C9: `pdfgen` returns one density curve per dataset, each curve
evaluating the normal density at every point of the shared bin edges (one
value per edge), and with positive standard deviations (and the positivity
facts true of the real `sqrt`, `exp` and `pi`) every value is
non-negative. -/
theorem pdfgen_c9_curves (sqrt expf : ℚ → ℚ) (piq : ℚ)
    (mean sdev bins_list : List ℚ) (hlen : sdev.length = mean.length)
    (hpos : ∀ s ∈ sdev, 0 < s)
    (hsqrt : ∀ q : ℚ, 0 < q → 0 < sqrt q)
    (hexp : ∀ q : ℚ, 0 < expf q) (hpi : 0 < piq) :
    ∃ curves, pdfgen sqrt expf piq mean sdev bins_list = .ok curves ∧
      curves.length = mean.length ∧
      (∀ c ∈ curves, c.length = bins_list.length) ∧
      (∀ c ∈ curves, ∀ v ∈ c, 0 ≤ v) := by
  let g : ℕ → List ℚ := fun i =>
    match mean[i]?, sdev[i]? with
    | some m, some s =>
      bins_list.map fun x =>
        1 / (s * sqrt (2 * piq)) * expf (-((x - m) ^ 2) / (2 * s ^ 2))
    | _, _ => []
  have hbody : ∀ i ∈ List.range mean.length, (fun i =>
      match mean[i]?, sdev[i]? with
      | some m, some s =>
        Except.ok (bins_list.map fun x =>
          1 / (s * sqrt (2 * piq)) * expf (-((x - m) ^ 2) / (2 * s ^ 2)))
      | _, _ => (Except.error PyErr.indexError : Except PyErr (List ℚ))) i =
        .ok (g i) := by
    intro i hi
    have him : i < mean.length := List.mem_range.mp hi
    have his : i < sdev.length := by omega
    simp only [g, List.getElem?_eq_getElem him, List.getElem?_eq_getElem his]
  have hgetD : ∀ (l : List ℚ) (i : ℕ), ∀ h : i < l.length, l.getD i 0 = l[i] := by
    intro l i h
    rw [List.getD_eq_getElem?_getD, List.getElem?_eq_getElem h]
    rfl
  have hg : ∀ i, i < mean.length → g i =
      bins_list.map fun x =>
        1 / (sdev.getD i 0 * sqrt (2 * piq)) *
          expf (-((x - mean.getD i 0) ^ 2) / (2 * sdev.getD i 0 ^ 2)) := by
    intro i him
    have his : i < sdev.length := by omega
    simp only [g, List.getElem?_eq_getElem him, List.getElem?_eq_getElem his,
      hgetD mean i him, hgetD sdev i his]
  refine ⟨(List.range mean.length).map g, mapM_ok _ g _ hbody, by simp, ?_, ?_⟩
  · intro c hc
    obtain ⟨i, hi, rfl⟩ := List.mem_map.mp hc
    rw [hg i (List.mem_range.mp hi)]
    simp
  · intro c hc v hv
    obtain ⟨i, hi, rfl⟩ := List.mem_map.mp hc
    have him : i < mean.length := List.mem_range.mp hi
    rw [hg i him] at hv
    obtain ⟨x, _, rfl⟩ := List.mem_map.mp hv
    have his : i < sdev.length := by omega
    have hsd : 0 < sdev.getD i 0 := by
      rw [List.getD_eq_getElem?_getD, List.getElem?_eq_getElem his]
      exact hpos _ (List.getElem_mem his)
    have hsq : 0 < sqrt (2 * piq) := hsqrt _ (by linarith)
    have hfac : 0 < 1 / (sdev.getD i 0 * sqrt (2 * piq)) :=
      one_div_pos.mpr (mul_pos hsd hsq)
    exact le_of_lt (mul_pos hfac (hexp _))

/-- witness for C9 at a one-dataset input with `sqrt := id`, `exp := 1`. -/
theorem pdfgen_c9_curves_witness :
    (([1] : List ℚ).length = ([1] : List ℚ).length) ∧
      ∃ curves, pdfgen (fun q => q) (fun _ => 1) 3 [1] [1] [0] = .ok curves ∧
        curves.length = ([1] : List ℚ).length ∧
        (∀ c ∈ curves, c.length = ([0] : List ℚ).length) ∧
        (∀ c ∈ curves, ∀ v ∈ c, 0 ≤ v) :=
  ⟨rfl, pdfgen_c9_curves (fun q => q) (fun _ => 1) 3 [1] [1] [0] rfl
    (by norm_num) (fun q hq => hq) (fun q => by norm_num) (by norm_num)⟩

/-- the numpy draw with a non-negative scale succeeds with `size` values. -/
theorem npRandomNormal_pos (ω : ℕ → ℚ) (m s : ℚ) (n : ℕ) (h : ¬s < 0) :
    npRandomNormal ω (some m) (some s) n =
      .ok ((List.range n).map fun i => m + s * ω i) := by
  simp [npRandomNormal, h]

/-- a successful numpy draw always has exactly `size` values. -/
theorem npRandomNormal_ok_length (ω : ℕ → ℚ) (mean sdev : Option ℚ)
    (size : ℕ) (xs : List ℚ)
    (h : npRandomNormal ω mean sdev size = .ok xs) : xs.length = size := by
  cases mean with
  | none => exact Except.noConfusion h
  | some m =>
    cases sdev with
    | none => exact Except.noConfusion h
    | some s =>
      simp only [npRandomNormal] at h
      split_ifs at h
      all_goals first
        | exact Except.noConfusion h
        | (injection h with h2; subst h2; simp)

/-- list `getD` at an in-range index is the element there. -/
theorem getD_q (l : List ℚ) (i : ℕ) (h : i < l.length) : l.getD i 0 = l[i] := by
  rw [List.getD_eq_getElem?_getD, List.getElem?_eq_getElem h]
  rfl

/-- evaluating `compounddata` on float arrays of means and non-negative
standard deviations (the happy path of the aggregator): one draw of `size`
values per dataset. -/
theorem compounddata_floats (sqrt : ℚ → ℚ) (Ω : ℕ → ℕ → ℚ)
    (parse : String → Option ℚ) (ms ss : List ℚ)
    (hlen : ss.length = ms.length) (hpos : ∀ s ∈ ss, ¬s < 0)
    (cival : ℚ) (size : ℕ) :
    compounddata sqrt Ω parse (.arr (ms.map PyVal.float))
        (.arr (ss.map PyVal.float)) .none .none .none cival size =
      .ok ((List.range ms.length).map fun i =>
        (List.range size).map fun j => ms.getD i 0 + ss.getD i 0 * Ω i j) := by
  simp only [compounddata, resolveShape, List.length_map]
  apply mapM_ok
  intro i hi
  have him : i < ms.length := List.mem_range.mp hi
  have his : i < ss.length := by omega
  have hsneg : ¬ss[i] < 0 := hpos _ (List.getElem_mem his)
  simp only [CArg.get, List.getElem?_map, List.getElem?_eq_getElem him,
    List.getElem?_eq_getElem his, List.getElem?_replicate, him, his, if_pos,
    Option.map_some', exBind_ok]
  simp only [correctdatatype, coerce1, exBind_ok, exPure]
  simp only [datagen, PyVal.toNum?, npRandomNormal, hsneg, if_false,
    getD_q ms i him, getD_q ss i his]

/-- C7: every sample `datagen` returns has length equal to the configured
size, and `compounddata` on `means=[24.12,24.43,24.82]`,
`sdevs=[3.87,3.94,3.95]`, `size=1000` returns exactly 3 samples, each of
length 1000, for every random source. -/
theorem datagen_c7_sample_length :
    (∀ (sqrt : ℚ → ℚ) (ω : ℕ → ℚ) (mean sdev serror lowerci upperci : PyVal)
      (cival : ℚ) (size : ℕ) (xs : List ℚ),
      datagen sqrt ω mean sdev serror lowerci upperci cival size = .ok xs →
      xs.length = size) ∧
    (∀ (sqrt : ℚ → ℚ) (Ω : ℕ → ℕ → ℚ) (parse : String → Option ℚ),
      ∃ samples,
        compounddata sqrt Ω parse
            (.arr [.float 24.12, .float 24.43, .float 24.82])
            (.arr [.float 3.87, .float 3.94, .float 3.95])
            .none .none .none 95 1000 = .ok samples ∧
          samples.length = 3 ∧ ∀ s ∈ samples, s.length = 1000) := by
  constructor
  · intro sqrt ω mean sdev serror lowerci upperci cival size xs h
    cases upperci with
    | float u =>
      simp only [datagen] at h
      rcases hci : ci_to_sd sqrt lowerci (.float u) cival size with e | v <;>
        rw [hci] at h <;> exact Except.noConfusion h
    | none =>
      simp only [datagen] at h
      exact npRandomNormal_ok_length _ _ _ _ _ h
    | int n =>
      simp only [datagen] at h
      exact npRandomNormal_ok_length _ _ _ _ _ h
    | str s =>
      simp only [datagen] at h
      exact npRandomNormal_ok_length _ _ _ _ _ h
  · intro sqrt Ω parse
    have he := compounddata_floats sqrt Ω parse [24.12, 24.43, 24.82]
      [3.87, 3.94, 3.95] rfl (by norm_num) 95 1000
    refine ⟨_, he, by simp, ?_⟩
    intro s hs
    obtain ⟨i, _, rfl⟩ := List.mem_map.mp hs
    simp

/-- witness for C7: a concrete two-draw sample of the claimed length. -/
theorem datagen_c7_sample_length_witness :
    (datagen (fun q => q) (fun _ => 0) (.float 1) (.float 2) .none .none .none
        95 2 = .ok ((List.range 2).map fun _ => (1 : ℚ) + 2 * 0)) ∧
      ((List.range 2).map fun _ => (1 : ℚ) + 2 * 0).length = 2 :=
  ⟨by rw [datagen_skip (fun q => q) (fun _ => 0) (.float 1) (.float 2) .none
        .none .none 95 2 rfl rfl]
      exact npRandomNormal_pos (fun _ => 0) 1 2 2 (by norm_num),
    datagen_c7_sample_length.1 (fun q => q) (fun _ => 0) (.float 1) (.float 2)
      .none .none .none 95 2 _
      (by rw [datagen_skip (fun q => q) (fun _ => 0) (.float 1) (.float 2)
            .none .none .none 95 2 rfl rfl]
          exact npRandomNormal_pos (fun _ => 0) 1 2 2 (by norm_num))⟩

end Datavis
